import Mathlib

/-!
Shallow embedding of the `aws-assume-role` CLI (Rust) for checking its
natural-language specification.

Sources embedded:
* `src/config/mod.rs` — `Config`, `RoleConfig`, `load`, `save`, `add_role`,
  `get_role`, `remove_role`.
* `src/aws/mod.rs` — `Credentials`, `assume_role`, `test_assume_role`.
* `src/cli/mod.rs` — the `Assume` arm of `Cli::run` and
  `output_credentials_for_shell` (json branch).

Conventions of the embedding:
* Rust `String` is Lean `String`; `Option<T>` is `Option T`; `i64`/`i32`
  integers are Lean `Int` (no overflow is reachable at the values involved).
* Fallible Rust functions returning `AppResult<T>` become
  `Except AppError T`.
* The filesystem at the fixed config path is a value
  `Option FileState`: `none` means the file does not exist,
  `some (.unreadable msg)` a file that exists but cannot be read, and
  `some (.content j)` a readable file holding JSON value `j`.  The
  serde_json string layer is an external crate; it is modelled at the
  JSON-value level: `serde_json::to_string_pretty` corresponds to
  `configToJson` and `serde_json::from_str` to `configFromJson`
  (decoding follows serde derive semantics: mandatory fields error when
  missing or ill-typed, `Option` fields accept `null` and default to
  `None` when the key is absent).
* The STS provider (AWS SDK, external crate) is a parameter
  `AssumeRoleRequest → Except String AssumeRoleOutput`: the request the
  code builds is passed to it, and it answers with the SDK's response
  type (`credentials` optional, with optional inner fields) or an error
  whose display string is what `e.to_string()` yields in the code.
-/

namespace AwsAssumeRole

/-- `RoleConfig` from `src/config/mod.rs`. -/
structure RoleConfig where
  name : String
  role_arn : String
  account_id : String
  source_profile : Option String
  session_duration : Option Int
  deriving Repr, DecidableEq

/-- `Config` from `src/config/mod.rs`. -/
structure Config where
  default_profile : Option String
  sso_start_url : Option String
  sso_region : Option String
  roles : List RoleConfig
  deriving Repr, DecidableEq

/-- `Config::new`. -/
def Config.new : Config :=
  { default_profile := none, sso_start_url := none, sso_region := none,
    roles := [] }

/-- The list action of `Config::add_role`: `roles.iter_mut().find(|r| r.name == role.name)`
replaces the first entry with a matching name in place; otherwise the role is
pushed at the end. -/
def addRoleList (role : RoleConfig) : List RoleConfig → List RoleConfig
  | [] => [role]
  | r :: rs => if r.name == role.name then role :: rs else r :: addRoleList role rs

/-- `Config::add_role`. -/
def Config.add_role (c : Config) (role : RoleConfig) : Config :=
  { c with roles := addRoleList role c.roles }

/-- `Config::get_role`: first entry with exactly matching name. -/
def Config.get_role (c : Config) (name : String) : Option RoleConfig :=
  c.roles.find? (fun r => r.name == name)

/-- The list action of `Config::remove_role`: remove the first entry with a
matching name, reporting whether a removal occurred. -/
def removeRoleList (name : String) : List RoleConfig → Bool × List RoleConfig
  | [] => (false, [])
  | r :: rs =>
      if r.name == name then (true, rs)
      else
        let p := removeRoleList name rs
        (p.1, r :: p.2)

/-- `Config::remove_role`: returns the Rust `bool` result together with the
mutated store. -/
def Config.remove_role (c : Config) (name : String) : Bool × Config :=
  let p := removeRoleList name c.roles
  (p.1, { c with roles := p.2 })

/-! ## JSON values (the serde_json data model, external crate) -/

/-- JSON values, the data model of the serde_json crate through which
`Config::save`/`Config::load` serialize. -/
inductive Json where
  | null
  | bool (b : Bool)
  | num (n : Int)
  | str (s : String)
  | arr (xs : List Json)
  | obj (fields : List (String × Json))

/-- Serialization of an `Option<String>` field (serde: `None` becomes `null`). -/
def optStrJson : Option String → Json
  | none => .null
  | some s => .str s

/-- Serialization of an `Option<i64>` field (serde: `None` becomes `null`). -/
def optIntJson : Option Int → Json
  | none => .null
  | some n => .num n

/-- `#[derive(Serialize)]` for `RoleConfig`: an object with the five fields in
declaration order. -/
def roleToJson (r : RoleConfig) : Json :=
  .obj [("name", .str r.name), ("role_arn", .str r.role_arn),
        ("account_id", .str r.account_id),
        ("source_profile", optStrJson r.source_profile),
        ("session_duration", optIntJson r.session_duration)]

/-- `#[derive(Serialize)]` for `Config`. -/
def configToJson (c : Config) : Json :=
  .obj [("default_profile", optStrJson c.default_profile),
        ("sso_start_url", optStrJson c.sso_start_url),
        ("sso_region", optStrJson c.sso_region),
        ("roles", .arr (c.roles.map roleToJson))]

/-- Field lookup in a JSON object (serde matches keys by name). -/
def getField (fields : List (String × Json)) (k : String) : Option Json :=
  (fields.find? (fun p => p.1 == k)).map (fun p => p.2)

/-- serde deserialization of a mandatory `String` field: missing or ill-typed
keys are errors. -/
def decodeStringField (fields : List (String × Json)) (k : String) :
    Except String String :=
  match getField fields k with
  | some (.str s) => .ok s
  | some _ => .error ("invalid type for field " ++ k)
  | none => .error ("missing field " ++ k)

/-- serde deserialization of an `Option<String>` field: an absent key or a
`null` value is `None`. -/
def decodeOptStringField (fields : List (String × Json)) (k : String) :
    Except String (Option String) :=
  match getField fields k with
  | none => .ok none
  | some .null => .ok none
  | some (.str s) => .ok (some s)
  | some _ => .error ("invalid type for field " ++ k)

/-- serde deserialization of an `Option<i64>` field. -/
def decodeOptIntField (fields : List (String × Json)) (k : String) :
    Except String (Option Int) :=
  match getField fields k with
  | none => .ok none
  | some .null => .ok none
  | some (.num n) => .ok (some n)
  | some _ => .error ("invalid type for field " ++ k)

/-- `#[derive(Deserialize)]` for `RoleConfig`. -/
def roleFromJson : Json → Except String RoleConfig
  | .obj fields => do
      let n ← decodeStringField fields "name"
      let arn ← decodeStringField fields "role_arn"
      let acct ← decodeStringField fields "account_id"
      let sp ← decodeOptStringField fields "source_profile"
      let sd ← decodeOptIntField fields "session_duration"
      pure ⟨n, arn, acct, sp, sd⟩
  | _ => .error "invalid type: expected a role object"

/-- Deserialization of the `roles` array, element by element, failing on the
first bad element (serde sequence semantics). -/
def decodeRoles : List Json → Except String (List RoleConfig)
  | [] => .ok []
  | j :: js => do
      let r ← roleFromJson j
      let rs ← decodeRoles js
      pure (r :: rs)

/-- `#[derive(Deserialize)]` for `Config`. -/
def configFromJson : Json → Except String Config
  | .obj fields => do
      let dp ← decodeOptStringField fields "default_profile"
      let su ← decodeOptStringField fields "sso_start_url"
      let sr ← decodeOptStringField fields "sso_region"
      let rolesJ ←
        (match getField fields "roles" with
         | some (.arr xs) => Except.ok xs
         | some _ => Except.error "invalid type for field roles"
         | none => Except.error "missing field roles")
      let roles ← decodeRoles rolesJ
      pure ⟨dp, su, sr, roles⟩
  | _ => .error "invalid type: expected a config object"

/-! ## Errors and persistence (`src/error/mod.rs`, `Config::load`/`save`) -/

/-- `AppError` from `src/error/mod.rs` (the `IoError` payload is modelled by
its display string). -/
inductive AppError where
  | AwsError (msg : String)
  | ConfigError (msg : String)
  | CliError (msg : String)
  | IoError (msg : String)
  deriving Repr, DecidableEq

/-- State of the file at the config path `<home>/.aws-assume-role/config.json`:
it may exist but be unreadable, or hold a JSON document. -/
inductive FileState where
  | unreadable (msg : String)
  | content (j : Json)

/-- `Config::load`, as a function of the state of the config file.  A missing
file yields the empty config literal from the source; a read failure or a
parse failure yields a `ConfigError` with the source's message prefix.
(`get_config_path` home-directory resolution is the external `dirs` crate and
is taken as resolved here.) -/
def Config.load (fs : Option FileState) : Except AppError Config :=
  match fs with
  | none =>
      .ok { default_profile := none, sso_start_url := none, sso_region := none,
            roles := [] }
  | some (.unreadable e) =>
      .error (.ConfigError ("Failed to read config file: " ++ e))
  | some (.content j) =>
      match configFromJson j with
      | .ok c => .ok c
      | .error e => .error (.ConfigError ("Failed to parse config file: " ++ e))

/-- `Config::save`: serializes the full store and overwrites the config file
wholesale.  Directory creation and the write itself are filesystem effects
whose success the round-trip claim conditions on; on success the file holds
exactly the serialized store. -/
def Config.save (c : Config) : Option FileState :=
  some (.content (configToJson c))

/-! ## The STS client (`src/aws/mod.rs`) -/

/-- `Credentials` from `src/aws/mod.rs`; the `SystemTime` expiration is
modelled as seconds since `UNIX_EPOCH`. -/
structure Credentials where
  access_key_id : String
  secret_access_key : String
  session_token : Option String
  expiration : Option Nat
  deriving Repr, DecidableEq

/-- The credentials object inside the SDK's assume-role response
(`aws_sdk_sts::types::Credentials`): every inner field is optional, and the
expiration is the SDK `DateTime`'s signed seconds. -/
structure StsCredentials where
  access_key_id : Option String
  secret_access_key : Option String
  session_token : Option String
  expiration : Option Int
  deriving Repr, DecidableEq

/-- The SDK's assume-role response: the credentials object itself may be
absent. -/
structure AssumeRoleOutput where
  credentials : Option StsCredentials
  deriving Repr, DecidableEq

/-- The request `assume_role`/`test_assume_role` build with the fluent SDK
builder: role ARN, session name and duration-seconds. -/
structure AssumeRoleRequest where
  role_arn : String
  role_session_name : String
  duration_seconds : Int
  deriving Repr, DecidableEq

/-- The STS provider as an injected capability: it maps the request the code
sends to either a response or an error (identified by its display string). -/
def StsProvider := AssumeRoleRequest → Except String AssumeRoleOutput

/-- The request built in `AwsClient::assume_role`:
`role_arn(&role_config.role_arn)`, the fixed session name, and
`duration_seconds(duration_seconds.unwrap_or(3600))`. -/
def mkAssumeRoleRequest (role_config : RoleConfig) (duration_seconds : Option Int) :
    AssumeRoleRequest :=
  { role_arn := role_config.role_arn,
    role_session_name := "aws-assume-role-session",
    duration_seconds := duration_seconds.getD 3600 }

/-- `exp.secs().try_into().unwrap_or(0)`: the `i64 → u64` conversion fails
exactly on negative values, which collapse to `0`; the result is the
`SystemTime` `UNIX_EPOCH + Duration::from_secs(...)` in seconds. -/
def convertExpiration (exp : Int) : Nat :=
  if 0 ≤ exp then exp.toNat else 0

/-- `AwsClient::assume_role`: build the request, send it, wrap a provider
failure in `AwsError`, reject a response with no credentials object, and
normalize the rest (`unwrap_or_default` on the key fields, session token
copied, expiration converted). -/
def assume_role (role_config : RoleConfig) (duration_seconds : Option Int)
    (provider : StsProvider) : Except AppError Credentials :=
  match provider (mkAssumeRoleRequest role_config duration_seconds) with
  | .error e => .error (.AwsError ("Failed to assume role: " ++ e))
  | .ok result =>
      match result.credentials with
      | none => .error (.AwsError "No credentials returned")
      | some credentials =>
          .ok { access_key_id := credentials.access_key_id.getD "",
                secret_access_key := credentials.secret_access_key.getD "",
                session_token := credentials.session_token,
                expiration := credentials.expiration.map convertExpiration }

/-- Substring test on character lists, the semantics of Rust
`str::contains(&str)`. -/
def charsContain (needle : List Char) : List Char → Bool
  | [] => needle.isEmpty
  | c :: rest => needle.isPrefixOf (c :: rest) || charsContain needle rest

/-- Rust `String::contains` on the underlying characters. -/
def strContains (hay needle : String) : Bool :=
  charsContain needle.data hay.data

/-- The error-text heuristic of `test_assume_role`:
`error_msg.contains("AccessDenied") || error_msg.contains("Forbidden")`. -/
def isAccessDeniedMsg (error_msg : String) : Bool :=
  strContains error_msg "AccessDenied" || strContains error_msg "Forbidden"

/-- The request built in `AwsClient::test_assume_role`: test session name and
the fixed minimum duration `900`. -/
def mkTestAssumeRoleRequest (role_config : RoleConfig) : AssumeRoleRequest :=
  { role_arn := role_config.role_arn,
    role_session_name := "aws-assume-role-test",
    duration_seconds := 900 }

/-- `AwsClient::test_assume_role`: success is `Ok(true)`; a failure whose text
carries an access-denied signature is `Ok(false)`; any other failure is an
`AwsError`. -/
def test_assume_role (role_config : RoleConfig) (provider : StsProvider) :
    Except AppError Bool :=
  match provider (mkTestAssumeRoleRequest role_config) with
  | .ok _ => .ok true
  | .error e =>
      if isAccessDeniedMsg e then .ok false
      else .error (.AwsError ("Failed to test role assumption: " ++ e))

/-! ## The CLI `Assume` arm (`src/cli/mod.rs`) -/

/-- The request the `Commands::Assume` arm of `Cli::run` causes to be sent:
it looks the role up by name and calls
`aws_client.assume_role(role, *duration)` with the raw `--duration` CLI flag
(`duration : Option i32`). -/
def cliAssumeRequest (config : Config) (name : String)
    (duration : Option Int) : Except AppError AssumeRoleRequest :=
  match config.get_role name with
  | none => .error (.CliError ("Role '" ++ name ++ "' not found"))
  | some role => .ok (mkAssumeRoleRequest role duration)

/-! ## The json output format (`output_credentials_for_shell`, json branch) -/

/-- The exact text printed by the `"json"` branch of
`output_credentials_for_shell`: each `println!` contributes its line and a
newline; the `SecretAccessKey` line always ends in a comma, the optional
`SessionToken` line ends in a comma, the optional `Expiration` line does not.
The expiration is printed as its seconds since `UNIX_EPOCH`. -/
def renderJsonCredentials (credentials : Credentials) : String :=
  "\x7b\n" ++
  "  \"AccessKeyId\": \"" ++ credentials.access_key_id ++ "\",\n" ++
  "  \"SecretAccessKey\": \"" ++ credentials.secret_access_key ++ "\",\n" ++
  (match credentials.session_token with
   | some token => "  \"SessionToken\": \"" ++ token ++ "\",\n"
   | none => "") ++
  (match credentials.expiration with
   | some exp => "  \"Expiration\": \"" ++ toString exp ++ "\"\n"
   | none => "") ++
  "\x7d\n"

/-! ## A JSON syntax checker (RFC 8259 grammar, used to judge the renderer) -/

/-- JSON insignificant whitespace. -/
def isJsonWs (c : Char) : Bool :=
  c == ' ' || c == '\n' || c == '\t' || c == '\r'

/-- Skip insignificant whitespace. -/
def skipWs : List Char → List Char
  | [] => []
  | c :: rest => if isJsonWs c then skipWs rest else c :: rest

/-- Hexadecimal digit (for `\u` escapes). -/
def isHexDigitCh (c : Char) : Bool :=
  c.isDigit || (Nat.ble 97 c.toNat && Nat.ble c.toNat 102) ||
    (Nat.ble 65 c.toNat && Nat.ble c.toNat 70)

/-- Consume the body of a JSON string after the opening quote, up to and
including the closing quote: unescaped control characters are refused, and
escapes are the RFC 8259 set. -/
def parseStringBody : List Char → Option (List Char)
  | [] => none
  | '"' :: rest => some rest
  | '\\' :: esc =>
      match esc with
      | [] => none
      | e :: rest =>
          if e == '"' || e == '\\' || e == '/' || e == 'b' || e == 'f' ||
              e == 'n' || e == 'r' || e == 't' then
            parseStringBody rest
          else if e == 'u' then
            match rest with
            | h1 :: h2 :: h3 :: h4 :: rest2 =>
                if isHexDigitCh h1 && isHexDigitCh h2 && isHexDigitCh h3 &&
                    isHexDigitCh h4 then
                  parseStringBody rest2
                else none
            | _ => none
          else none
  | c :: rest => if Nat.ble 32 c.toNat then parseStringBody rest else none

/-- At least one digit, then any further digits. -/
def parseDigits1 : List Char → Option (List Char)
  | [] => none
  | c :: rest => if c.isDigit then some (rest.dropWhile Char.isDigit) else none

/-- A JSON number (sign, integer part, optional fraction and exponent). -/
def parseNumber (s : List Char) : Option (List Char) :=
  let s1 := match s with
    | '-' :: r => r
    | _ => s
  match parseDigits1 s1 with
  | none => none
  | some s2 =>
      let s3 : Option (List Char) := match s2 with
        | '.' :: r => parseDigits1 r
        | _ => some s2
      match s3 with
      | none => none
      | some s4 =>
          match s4 with
          | e :: r =>
              if e == 'e' || e == 'E' then
                let r2 := match r with
                  | '+' :: rr => rr
                  | '-' :: rr => rr
                  | _ => r
                parseDigits1 r2
              else some s4
          | [] => some s4

mutual

/-- Consume one JSON value; the fuel bounds nesting depth. -/
def parseValue : Nat → List Char → Option (List Char)
  | 0, _ => none
  | _ + 1, [] => none
  | fuel + 1, c :: rest =>
      if c == '"' then parseStringBody rest
      else if c == '\x7b' then
        match skipWs rest with
        | '\x7d' :: rest2 => some rest2
        | rest2 => parseMembers fuel rest2
      else if c == '[' then
        match skipWs rest with
        | ']' :: rest2 => some rest2
        | rest2 => parseElements fuel rest2
      else if c == 't' then
        match rest with
        | 'r' :: 'u' :: 'e' :: rest2 => some rest2
        | _ => none
      else if c == 'f' then
        match rest with
        | 'a' :: 'l' :: 's' :: 'e' :: rest2 => some rest2
        | _ => none
      else if c == 'n' then
        match rest with
        | 'u' :: 'l' :: 'l' :: rest2 => some rest2
        | _ => none
      else parseNumber (c :: rest)

/-- Consume the members of an object (after `\x7b` and leading whitespace),
including the closing brace; a comma must be followed by another member. -/
def parseMembers : Nat → List Char → Option (List Char)
  | 0, _ => none
  | fuel + 1, s =>
      match s with
      | '"' :: rest =>
          match parseStringBody rest with
          | none => none
          | some rest2 =>
              match skipWs rest2 with
              | ':' :: rest3 =>
                  match parseValue fuel (skipWs rest3) with
                  | none => none
                  | some rest4 =>
                      match skipWs rest4 with
                      | ',' :: rest5 => parseMembers fuel (skipWs rest5)
                      | '\x7d' :: rest5 => some rest5
                      | _ => none
              | _ => none
      | _ => none

/-- Consume the elements of an array (after `[` and leading whitespace),
including the closing bracket. -/
def parseElements : Nat → List Char → Option (List Char)
  | 0, _ => none
  | fuel + 1, s =>
      match parseValue fuel s with
      | none => none
      | some rest =>
          match skipWs rest with
          | ',' :: rest2 => parseElements fuel (skipWs rest2)
          | ']' :: rest2 => some rest2
          | _ => none

end

/-- Syntactic validity of a whole JSON document: one value surrounded by
whitespace, nothing left over. -/
def jsonValid (s : String) : Bool :=
  match parseValue (s.length + 1) (skipWs s.data) with
  | some rest => (skipWs rest).isEmpty
  | none => false

/-! ## Helper lemmas about the store's list operations -/

theorem addRoleList_of_not_any (r : RoleConfig) (l : List RoleConfig)
    (h : (l.any fun x => x.name == r.name) = false) :
    addRoleList r l = l ++ [r] := by
  induction l with
  | nil => rfl
  | cons x l ih =>
      simp only [List.any_cons, Bool.or_eq_false_iff] at h
      simp [addRoleList, h.1, ih h.2]

theorem addRoleList_replace (r x : RoleConfig) (pre post : List RoleConfig)
    (hx : x.name = r.name) (hpre : ∀ y ∈ pre, y.name ≠ r.name) :
    addRoleList r (pre ++ x :: post) = pre ++ r :: post := by
  induction pre with
  | nil => simp [addRoleList, hx]
  | cons y pre ih =>
      have hy : (y.name == r.name) = false := by
        simpa using hpre y (List.mem_cons_self y pre)
      simp [addRoleList, hy,
        ih (fun z hz => hpre z (List.mem_cons_of_mem _ hz))]

theorem addRoleList_same_name (r1 r2 : RoleConfig) (h : r1.name = r2.name)
    (l : List RoleConfig) :
    addRoleList r2 (addRoleList r1 l) = addRoleList r2 l := by
  induction l with
  | nil => simp [addRoleList, h]
  | cons x l ih =>
      cases hc : (x.name == r1.name) with
      | true =>
          have hc2 : (x.name == r2.name) = true := by rw [← h]; exact hc
          simp [addRoleList, hc, hc2, h]
      | false =>
          have hc2 : (x.name == r2.name) = false := by rw [← h]; exact hc
          simp [addRoleList, hc, hc2, ih]

theorem addRoleList_any_self (r : RoleConfig) (n : String) (hn : r.name = n)
    (l : List RoleConfig) :
    ((addRoleList r l).any fun x => x.name == n) = true := by
  induction l with
  | nil => simp [addRoleList, hn]
  | cons x l ih =>
      cases hc : (x.name == r.name) with
      | true =>
          have hx : x.name = r.name := eq_of_beq hc
          simp [addRoleList, hx, hn]
      | false =>
          have hx : x.name ≠ r.name := ne_of_beq_false hc
          simp [addRoleList, hx, ih]

theorem addRoleList_length_of_any (r : RoleConfig) (l : List RoleConfig)
    (h : (l.any fun x => x.name == r.name) = true) :
    (addRoleList r l).length = l.length := by
  induction l with
  | nil => simp at h
  | cons x l ih =>
      cases hc : (x.name == r.name) with
      | true => simp [addRoleList, hc]
      | false =>
          have h' : (l.any fun x => x.name == r.name) = true := by
            simpa [List.any_cons, hc] using h
          simp [addRoleList, hc, ih h']

theorem map_name_addRoleList_of_any (r : RoleConfig) (l : List RoleConfig)
    (h : (l.any fun x => x.name == r.name) = true) :
    (addRoleList r l).map RoleConfig.name = l.map RoleConfig.name := by
  induction l with
  | nil => simp at h
  | cons x l ih =>
      cases hc : (x.name == r.name) with
      | true =>
          have hx : x.name = r.name := eq_of_beq hc
          simp [addRoleList, hx]
      | false =>
          have hx : x.name ≠ r.name := ne_of_beq_false hc
          have h' : (l.any fun x => x.name == r.name) = true := by
            simpa [List.any_cons, hc] using h
          simp [addRoleList, hx, ih h']

theorem addRoleList_names_nodup (r : RoleConfig) (l : List RoleConfig)
    (h : (l.map RoleConfig.name).Nodup) :
    ((addRoleList r l).map RoleConfig.name).Nodup := by
  cases hany : (l.any fun x => x.name == r.name) with
  | true => rw [map_name_addRoleList_of_any r l hany]; exact h
  | false =>
      rw [addRoleList_of_not_any r l hany, List.map_append]
      rw [List.nodup_append]
      refine ⟨h, List.nodup_singleton _, ?_⟩
      intro a ha hb
      have hb' : a = r.name := by simpa using hb
      subst hb'
      rcases List.mem_map.mp ha with ⟨y, hy, hyname⟩
      have : (l.any fun x => x.name == r.name) = true :=
        List.any_eq_true.mpr ⟨y, hy, by simp [hyname]⟩
      rw [hany] at this
      exact absurd this (by simp)

theorem addRoleList_filter_ne (r : RoleConfig) (l : List RoleConfig) :
    (addRoleList r l).filter (fun x => !(x.name == r.name)) =
      l.filter (fun x => !(x.name == r.name)) := by
  induction l with
  | nil => simp [addRoleList]
  | cons x l ih =>
      cases hc : (x.name == r.name) with
      | true => simp [addRoleList, hc]
      | false => simp [addRoleList, hc, ih]

theorem addRoleList_countP (r : RoleConfig) (n : String) (hn : r.name = n)
    (l : List RoleConfig) (h : (l.map RoleConfig.name).Nodup) :
    (addRoleList r l).countP (fun x => x.name == n) = 1 := by
  induction l with
  | nil => simp [addRoleList, hn, List.countP_cons]
  | cons x l ih =>
      simp only [List.map_cons, List.nodup_cons] at h
      cases hc : (x.name == r.name) with
      | true =>
          have hx : x.name = r.name := eq_of_beq hc
          have h0 : l.countP (fun x => x.name == n) = 0 := by
            refine List.countP_eq_zero.mpr fun a ha hpa => ?_
            have ha' : a.name = x.name := by
              have := eq_of_beq hpa
              rw [this, ← hn, ← hx]
            exact h.1 (ha' ▸ List.mem_map_of_mem RoleConfig.name ha)
          simp [addRoleList, hx, List.countP_cons, hn, h0]
      | false =>
          have hx : x.name ≠ r.name := ne_of_beq_false hc
          have hxn : (x.name == n) = false := by rw [← hn]; exact hc
          simp [addRoleList, hx, List.countP_cons, hxn, ih h.2]

theorem removeRoleList_of_not_any (n : String) (l : List RoleConfig)
    (h : (l.any fun x => x.name == n) = false) :
    removeRoleList n l = (false, l) := by
  induction l with
  | nil => rfl
  | cons x l ih =>
      simp only [List.any_cons, Bool.or_eq_false_iff] at h
      simp [removeRoleList, h.1, ih h.2]

theorem removeRoleList_replace (n : String) (x : RoleConfig)
    (pre post : List RoleConfig) (hx : x.name = n)
    (hpre : ∀ y ∈ pre, y.name ≠ n) :
    removeRoleList n (pre ++ x :: post) = (true, pre ++ post) := by
  induction pre with
  | nil => simp [removeRoleList, hx]
  | cons y pre ih =>
      have hy : (y.name == n) = false := by
        simpa using hpre y (List.mem_cons_self y pre)
      simp [removeRoleList, hy,
        ih (fun z hz => hpre z (List.mem_cons_of_mem _ hz))]

theorem removeRoleList_fst_of_any (n : String) (l : List RoleConfig)
    (h : (l.any fun x => x.name == n) = true) :
    (removeRoleList n l).1 = true := by
  induction l with
  | nil => simp at h
  | cons x l ih =>
      cases hc : (x.name == n) with
      | true => simp [removeRoleList, hc]
      | false =>
          have h' : (l.any fun x => x.name == n) = true := by
            simpa [List.any_cons, hc] using h
          simp [removeRoleList, hc, ih h']

theorem removeRoleList_length_of_any (n : String) (l : List RoleConfig)
    (h : (l.any fun x => x.name == n) = true) :
    (removeRoleList n l).2.length + 1 = l.length := by
  induction l with
  | nil => simp at h
  | cons x l ih =>
      cases hc : (x.name == n) with
      | true => simp [removeRoleList, hc]
      | false =>
          have h' : (l.any fun x => x.name == n) = true := by
            simpa [List.any_cons, hc] using h
          simp [removeRoleList, hc, ih h']

theorem removeRoleList_sublist (n : String) (l : List RoleConfig) :
    (removeRoleList n l).2.Sublist l := by
  induction l with
  | nil => simp [removeRoleList]
  | cons x l ih =>
      cases hc : (x.name == n) with
      | true =>
          simp only [removeRoleList, hc, if_pos rfl]
          exact List.sublist_cons_self x l
      | false =>
          simp only [removeRoleList, hc, Bool.false_eq_true, if_false]
          exact List.Sublist.cons₂ x ih

theorem removeRoleList_filter_ne (n : String) (l : List RoleConfig) :
    (removeRoleList n l).2.filter (fun x => !(x.name == n)) =
      l.filter (fun x => !(x.name == n)) := by
  induction l with
  | nil => rfl
  | cons x l ih =>
      cases hc : (x.name == n) with
      | true => simp [removeRoleList, hc]
      | false => simp [removeRoleList, hc, ih]

theorem removeRoleList_no_match_after (n : String) (l : List RoleConfig)
    (h : (l.map RoleConfig.name).Nodup) :
    ((removeRoleList n l).2.any fun x => x.name == n) = false := by
  induction l with
  | nil => rfl
  | cons x l ih =>
      simp only [List.map_cons, List.nodup_cons] at h
      cases hc : (x.name == n) with
      | true =>
          have hx : x.name = n := eq_of_beq hc
          simp only [removeRoleList, hc, if_pos rfl]
          refine List.any_eq_false.mpr fun a ha => ?_
          intro hpa
          have : a.name = x.name := by rw [eq_of_beq hpa, hx]
          exact h.1 (this ▸ List.mem_map_of_mem RoleConfig.name ha)
      | false =>
          simp only [removeRoleList, hc, Bool.false_eq_true, if_false,
            List.any_cons, hc, Bool.false_or]
          exact ih h.2

theorem pre_no_match_of_nodup (pre post : List RoleConfig) (x : RoleConfig)
    (n : String) (hx : x.name = n)
    (h : (((pre ++ x :: post)).map RoleConfig.name).Nodup) :
    ∀ y ∈ pre, y.name ≠ n := by
  intro y hy hyn
  rw [List.map_append, List.nodup_append] at h
  exact h.2.2 (List.mem_map_of_mem RoleConfig.name hy)
    (by simp [hyn, hx.symm])

/-! ## Serialization round-trip lemmas -/

theorem roleFromJson_roleToJson (r : RoleConfig) :
    roleFromJson (roleToJson r) = .ok r := by
  obtain ⟨n, arn, acct, sp, sd⟩ := r
  cases sp <;> cases sd <;> rfl

theorem decodeRoles_map (rs : List RoleConfig) :
    decodeRoles (rs.map roleToJson) = .ok rs := by
  induction rs with
  | nil => rfl
  | cons r rs ih =>
      simp [decodeRoles, roleFromJson_roleToJson, ih, Bind.bind, Except.bind]
      rfl

theorem configFromJson_configToJson (c : Config) :
    configFromJson (configToJson c) = .ok c := by
  obtain ⟨dp, su, sr, roles⟩ := c
  have h := decodeRoles_map roles
  cases dp <;> cases su <;> cases sr <;>
    simp [configFromJson, configToJson, decodeOptStringField, getField,
      List.find?, optStrJson, h, Bind.bind, Except.bind, pure, Except.pure]

/-! ## Sample data used by witnesses and counterexamples -/

/-- A role whose stored session duration (7200) differs from the hardcoded
3600 default. -/
def devRole7200 : RoleConfig :=
  { name := "dev", role_arn := "arn:aws:iam::123456789012:role/DevRole",
    account_id := "123456789012", source_profile := none,
    session_duration := some 7200 }

/-- A store holding just `devRole7200`. -/
def devConfig : Config :=
  { default_profile := none, sso_start_url := none, sso_region := none,
    roles := [devRole7200] }

/-- A plain sample role. -/
def sampleRole : RoleConfig :=
  { name := "dev", role_arn := "arn:aws:iam::123456789012:role/DevRole",
    account_id := "123456789012", source_profile := none,
    session_duration := none }

/-- A second definition for the name "dev" with a different ARN. -/
def devRoleV2 : RoleConfig :=
  { name := "dev", role_arn := "arn:aws:iam::123456789012:role/DevRoleV2",
    account_id := "123456789012", source_profile := none,
    session_duration := none }

/-! ## Claim theorems -/

/-- C1: the spec's fallback chain
`durationOverride ?? def.sessionDurationSeconds ?? 3600` does NOT hold of the
code: `assume_role` computes `duration_seconds.unwrap_or(3600)` and the CLI
`Assume` arm passes the raw `--duration` flag, so a stored
`session_duration` of 7200 is ignored and the request carries 3600 when no
override is given.  This theorem evaluates the code at that failing input. -/
theorem cli_assume_ignores_stored_session_duration :
    devRole7200.session_duration = some 7200 ∧
    (mkAssumeRoleRequest devRole7200 none).duration_seconds = 3600 ∧
    cliAssumeRequest devConfig "dev" none =
      .ok { role_arn := "arn:aws:iam::123456789012:role/DevRole",
            role_session_name := "aws-assume-role-session",
            duration_seconds := 3600 } ∧
    (mkAssumeRoleRequest devRole7200 (some 1800)).duration_seconds = 1800 :=
  ⟨rfl, rfl, rfl, rfl⟩

/-- C2: `test_assume_role` returns `Ok(true)` on provider success, `Ok(false)`
exactly when the provider fails with an error whose text carries an
access-denied/forbidden signature, and surfaces every other provider failure
as an `AwsError` rather than collapsing it to `false`. -/
theorem test_assume_role_classification (rc : RoleConfig)
    (provider : StsProvider) :
    (∀ out, provider (mkTestAssumeRoleRequest rc) = .ok out →
        test_assume_role rc provider = .ok true) ∧
    (∀ e, provider (mkTestAssumeRoleRequest rc) = .error e →
        isAccessDeniedMsg e = true →
        test_assume_role rc provider = .ok false) ∧
    (∀ e, provider (mkTestAssumeRoleRequest rc) = .error e →
        isAccessDeniedMsg e = false →
        test_assume_role rc provider =
          .error (.AwsError ("Failed to test role assumption: " ++ e))) ∧
    (test_assume_role rc provider = .ok false →
        ∃ e, provider (mkTestAssumeRoleRequest rc) = .error e ∧
          isAccessDeniedMsg e = true) := by
  cases hp : provider (mkTestAssumeRoleRequest rc) with
  | ok out =>
      refine ⟨fun _ _ => by simp [test_assume_role, hp], ?_, ?_, ?_⟩
      · intro e he; simp at he
      · intro e he; simp at he
      · intro hfalse; simp [test_assume_role, hp] at hfalse
  | error e0 =>
      refine ⟨?_, ?_, ?_, ?_⟩
      · intro out hout; simp at hout
      · intro e he hd
        injection he with h
        subst h
        simp [test_assume_role, hp, hd]
      · intro e he hd
        injection he with h
        subst h
        simp [test_assume_role, hp, hd]
      · intro hfalse
        cases hd : isAccessDeniedMsg e0 with
        | true => exact ⟨e0, rfl, hd⟩
        | false => simp [test_assume_role, hp, hd] at hfalse

/-- Witness for C2: a network-timeout error (no access-denied signature)
propagates as an `AwsError` rather than collapsing to `false`. -/
theorem test_assume_role_classification_witness :
    test_assume_role sampleRole (fun _ => .error "connection timed out") =
      .error (.AwsError
        "Failed to test role assumption: connection timed out") := by
  have h := (test_assume_role_classification sampleRole
      (fun _ => .error "connection timed out")).2.2.1
    "connection timed out" rfl (by decide)
  simpa using h

/-- C3: `save()` then `load()` on the same path, with both succeeding,
reproduces the store exactly — in particular the ordered role list with all
its names, ARNs, account ids and session durations. -/
theorem save_load_roundtrip (c : Config) :
    Config.load (Config.save c) = .ok c := by
  simp [Config.load, Config.save, configFromJson_configToJson]

/-- C4: on a store with unique names, adding a role named `n` twice (second
definition with a different ARN) leaves exactly one entry named `n`, namely
the second definition, at the position the first occupied (the replaced
entry's position if `n` was present, else the appended slot); the role count
does not grow on the second call, and all other entries keep their order. -/
theorem add_role_twice_replaces (c : Config) (n : String)
    (r1 r2 : RoleConfig) (h1 : r1.name = n) (h2 : r2.name = n)
    (_harn : r1.role_arn ≠ r2.role_arn)
    (hnodup : (c.roles.map RoleConfig.name).Nodup) :
    ((c.add_role r1).add_role r2).roles.countP (fun x => x.name == n) = 1 ∧
    ((c.add_role r1).add_role r2).roles.length =
      (c.add_role r1).roles.length ∧
    (∀ pre x post, c.roles = pre ++ x :: post → x.name = n →
        ((c.add_role r1).add_role r2).roles = pre ++ r2 :: post) ∧
    ((c.roles.any fun x => x.name == n) = false →
        ((c.add_role r1).add_role r2).roles = c.roles ++ [r2]) := by
  have hcollapse : ((c.add_role r1).add_role r2).roles =
      addRoleList r2 c.roles :=
    addRoleList_same_name r1 r2 (h1.trans h2.symm) c.roles
  refine ⟨?_, ?_, ?_, ?_⟩
  · rw [hcollapse]
    exact addRoleList_countP r2 n h2 c.roles hnodup
  · exact addRoleList_length_of_any r2 (addRoleList r1 c.roles)
      (addRoleList_any_self r1 r2.name (h1.trans h2.symm) c.roles)
  · intro pre x post hdec hx
    rw [hcollapse, hdec]
    refine addRoleList_replace r2 x pre post (hx.trans h2.symm) ?_
    intro y hy
    rw [h2]
    exact pre_no_match_of_nodup pre post x n hx (hdec ▸ hnodup) y hy
  · intro hany
    rw [hcollapse]
    refine addRoleList_of_not_any r2 c.roles ?_
    rw [h2]
    exact hany

/-- Witness for C4: two definitions named "dev" with different ARNs added to a
two-role store. -/
theorem add_role_twice_replaces_witness :
    ((devConfig.add_role sampleRole).add_role devRoleV2).roles.countP
        (fun x => x.name == "dev") = 1 ∧
    ((devConfig.add_role sampleRole).add_role devRoleV2).roles.length =
      (devConfig.add_role sampleRole).roles.length ∧
    (∀ pre x post, devConfig.roles = pre ++ x :: post → x.name = "dev" →
        ((devConfig.add_role sampleRole).add_role devRoleV2).roles =
          pre ++ devRoleV2 :: post) ∧
    ((devConfig.roles.any fun x => x.name == "dev") = false →
        ((devConfig.add_role sampleRole).add_role devRoleV2).roles =
          devConfig.roles ++ [devRoleV2]) :=
  add_role_twice_replaces devConfig "dev" sampleRole devRoleV2 rfl rfl
    (by decide) (by decide)

/-- C5: `load()` with no config file present succeeds with the empty store
(no roles, no default-profile/SSO metadata); an error is only ever a
`ConfigError`, and only when the file exists (but cannot be read or does not
parse). -/
theorem load_missing_file_semantics :
    (Config.load none =
      .ok { default_profile := none, sso_start_url := none,
            sso_region := none, roles := [] }) ∧
    (∀ fs e, Config.load fs = .error e →
        (∃ st, fs = some st) ∧ ∃ msg, e = .ConfigError msg) := by
  refine ⟨rfl, ?_⟩
  intro fs e h
  match fs with
  | none => simp [Config.load] at h
  | some (.unreadable m) =>
      refine ⟨⟨_, rfl⟩, "Failed to read config file: " ++ m, ?_⟩
      simp [Config.load] at h
      exact h.symm
  | some (.content j) =>
      refine ⟨⟨_, rfl⟩, ?_⟩
      simp only [Config.load] at h
      cases hj : configFromJson j with
      | ok c => rw [hj] at h; cases h
      | error msg =>
          rw [hj] at h
          exact ⟨"Failed to parse config file: " ++ msg,
            by cases h; rfl⟩

/-- Witness for C5: applied to a missing file and to an unreadable file. -/
theorem load_missing_file_semantics_witness :
    (Config.load none =
      .ok { default_profile := none, sso_start_url := none,
            sso_region := none, roles := [] }) ∧
    ((∃ st, (some (FileState.unreadable "disk error") : Option FileState) =
        some st) ∧
      ∃ msg, (AppError.ConfigError "Failed to read config file: disk error") =
        .ConfigError msg) :=
  ⟨load_missing_file_semantics.1,
   load_missing_file_semantics.2 (some (.unreadable "disk error")) _ rfl⟩

/-- C6: on a store with unique names, `remove_role n` with `n` present
returns `true`, removes exactly the (first) matching entry so the count drops
by one, and a second `remove_role n` returns `false` leaving the store
unchanged; with `n` absent it returns `false` and changes nothing. -/
theorem remove_role_spec (c : Config) (n : String)
    (hnodup : (c.roles.map RoleConfig.name).Nodup) :
    ((c.roles.any fun x => x.name == n) = true →
        (c.remove_role n).1 = true ∧
        (c.remove_role n).2.roles.length + 1 = c.roles.length ∧
        (∀ pre x post, c.roles = pre ++ x :: post → x.name = n →
            (c.remove_role n).2.roles = pre ++ post) ∧
        ((c.remove_role n).2).remove_role n = (false, (c.remove_role n).2)) ∧
    ((c.roles.any fun x => x.name == n) = false →
        c.remove_role n = (false, c)) := by
  constructor
  · intro hany
    refine ⟨removeRoleList_fst_of_any n c.roles hany,
      removeRoleList_length_of_any n c.roles hany, ?_, ?_⟩
    · intro pre x post hdec hx
      show (removeRoleList n c.roles).2 = pre ++ post
      rw [hdec,
        removeRoleList_replace n x pre post hx
          (pre_no_match_of_nodup pre post x n hx (hdec ▸ hnodup))]
    · have hno : (((c.remove_role n).2).roles.any fun x => x.name == n) =
          false :=
        removeRoleList_no_match_after n c.roles hnodup
      have := removeRoleList_of_not_any n ((c.remove_role n).2).roles hno
      show ((removeRoleList n ((c.remove_role n).2).roles).1,
          { (c.remove_role n).2 with
            roles := (removeRoleList n ((c.remove_role n).2).roles).2 }) = _
      rw [this]
  · intro hany
    have := removeRoleList_of_not_any n c.roles hany
    show ((removeRoleList n c.roles).1,
        { c with roles := (removeRoleList n c.roles).2 }) = (false, c)
    rw [this]

/-- Witness for C6: removing "dev" from the one-role store. -/
theorem remove_role_spec_witness :
    ((devConfig.roles.any fun x => x.name == "dev") = true →
        (devConfig.remove_role "dev").1 = true ∧
        (devConfig.remove_role "dev").2.roles.length + 1 =
          devConfig.roles.length ∧
        (∀ pre x post, devConfig.roles = pre ++ x :: post → x.name = "dev" →
            (devConfig.remove_role "dev").2.roles = pre ++ post) ∧
        ((devConfig.remove_role "dev").2).remove_role "dev" =
          (false, (devConfig.remove_role "dev").2)) ∧
    ((devConfig.roles.any fun x => x.name == "dev") = false →
        devConfig.remove_role "dev" = (false, devConfig)) :=
  remove_role_spec devConfig "dev" (by decide)

/-- C7: `assume_role` fails with an `AwsError` when the provider's response
carries no credentials object at all, and wraps any provider call failure in
an `AwsError` carrying the underlying error. -/
theorem assume_role_error_cases (rc : RoleConfig) (d : Option Int)
    (provider : StsProvider) :
    (∀ out, provider (mkAssumeRoleRequest rc d) = .ok out →
        out.credentials = none →
        assume_role rc d provider =
          .error (.AwsError "No credentials returned")) ∧
    (∀ e, provider (mkAssumeRoleRequest rc d) = .error e →
        assume_role rc d provider =
          .error (.AwsError ("Failed to assume role: " ++ e))) := by
  constructor
  · intro out hout hnone
    simp [assume_role, hout, hnone]
  · intro e he
    simp [assume_role, he]

/-- Witness for C7: a provider answering with a credential-less response, and
one failing outright. -/
theorem assume_role_error_cases_witness :
    assume_role sampleRole none (fun _ => .ok ⟨none⟩) =
      .error (.AwsError "No credentials returned") ∧
    assume_role sampleRole none (fun _ => .error "throttled") =
      .error (.AwsError "Failed to assume role: throttled") :=
  ⟨(assume_role_error_cases sampleRole none (fun _ => .ok ⟨none⟩)).1
      ⟨none⟩ rfl rfl,
   by
    have h := (assume_role_error_cases sampleRole none
        (fun _ => .error "throttled")).2 "throttled" rfl
    simpa using h⟩

/-- C9: name-uniqueness is preserved by `add_role` and `remove_role`, and
entries other than the one named by the operation keep their relative order
(their filtered subsequences are unchanged). -/
theorem name_uniqueness_invariant (c : Config) (r : RoleConfig) (n : String)
    (hnodup : (c.roles.map RoleConfig.name).Nodup) :
    ((c.add_role r).roles.map RoleConfig.name).Nodup ∧
    (((c.remove_role n).2).roles.map RoleConfig.name).Nodup ∧
    (c.add_role r).roles.filter (fun x => !(x.name == r.name)) =
      c.roles.filter (fun x => !(x.name == r.name)) ∧
    ((c.remove_role n).2).roles.filter (fun x => !(x.name == n)) =
      c.roles.filter (fun x => !(x.name == n)) := by
  refine ⟨addRoleList_names_nodup r c.roles hnodup, ?_,
    addRoleList_filter_ne r c.roles, removeRoleList_filter_ne n c.roles⟩
  exact ((removeRoleList_sublist n c.roles).map RoleConfig.name).nodup hnodup

/-- Witness for C9: the two-entry store obtained by adding "prod". -/
theorem name_uniqueness_invariant_witness :
    ((devConfig.add_role sampleRole).roles.map RoleConfig.name).Nodup ∧
    (((devConfig.remove_role "dev").2).roles.map RoleConfig.name).Nodup ∧
    (devConfig.add_role sampleRole).roles.filter
        (fun x => !(x.name == sampleRole.name)) =
      devConfig.roles.filter (fun x => !(x.name == sampleRole.name)) ∧
    ((devConfig.remove_role "dev").2).roles.filter
        (fun x => !(x.name == "dev")) =
      devConfig.roles.filter (fun x => !(x.name == "dev")) :=
  name_uniqueness_invariant devConfig sampleRole "dev" (by decide)

/-- C10: when the provider's response does contain a credentials object,
`assume_role` always succeeds, substituting the empty string for a missing
access-key-id or secret-access-key (`unwrap_or_default`) and copying the
session token as-is. -/
theorem assume_role_defaults_missing_key_fields (rc : RoleConfig)
    (d : Option Int) (provider : StsProvider) (creds : StsCredentials)
    (h : provider (mkAssumeRoleRequest rc d) = .ok ⟨some creds⟩) :
    assume_role rc d provider =
      .ok { access_key_id := creds.access_key_id.getD "",
            secret_access_key := creds.secret_access_key.getD "",
            session_token := creds.session_token,
            expiration := creds.expiration.map convertExpiration } := by
  simp [assume_role, h]

/-- Witness for C10: a credentials object with both key fields absent yields
empty strings, not an error. -/
theorem assume_role_defaults_missing_key_fields_witness :
    assume_role sampleRole none
        (fun _ => .ok ⟨some ⟨none, none, some "tok", none⟩⟩) =
      .ok { access_key_id := "", secret_access_key := "",
            session_token := some "tok", expiration := none } := by
  have h := assume_role_defaults_missing_key_fields sampleRole none
    (fun _ => .ok ⟨some ⟨none, none, some "tok", none⟩⟩)
    ⟨none, none, some "tok", none⟩ rfl
  simpa using h

set_option maxRecDepth 8000 in
/-- C8: the claim that the json rendering is always valid JSON fails on the
code: the `SecretAccessKey` (and `SessionToken`) lines always end in a comma,
so whenever `Expiration` is absent the object ends in a trailing comma and is
not syntactically valid JSON.  With both optional fields present the output
is valid. -/
theorem json_output_invalid_without_expiration :
    jsonValid (renderJsonCredentials
      { access_key_id := "AKIDEXAMPLE", secret_access_key := "secretkey",
        session_token := none, expiration := none }) = false ∧
    jsonValid (renderJsonCredentials
      { access_key_id := "AKIDEXAMPLE", secret_access_key := "secretkey",
        session_token := some "FwoGZXIvYXdzEBE", expiration := none }) =
      false ∧
    jsonValid (renderJsonCredentials
      { access_key_id := "AKIDEXAMPLE", secret_access_key := "secretkey",
        session_token := some "FwoGZXIvYXdzEBE",
        expiration := some 1700000000 }) = true := by
  refine ⟨by decide, by decide, by decide⟩

end AwsAssumeRole
